import Mathlib

/-!
Verification development for the Linnaeus LLM comparison layer
(`src/LLM.py`): a polymorphic model abstraction (`LLMBase` and its
concrete variants) together with a dual-model comparison manager
(`LLMManager`).  The Python code is shallowly embedded below: the pure
message-preparation logic becomes a Lean function; the external provider
APIs (Groq, OpenAI) become an oracle `Env`, and every outgoing API call is
recorded in a trace so that claims about the number and shape of backend
calls can be stated and proved.
-/

namespace Linnaeus

/-- The role tag of a chat message (the `"role"` field of the dicts built
by `LLMBase.prepare_messages`). -/
inductive Role where
  | system
  | user
  | assistant
deriving DecidableEq, Repr

/-- One chat message: a role together with text content (the
`{"role": ..., "content": ...}` dicts of `src/LLM.py`). -/
structure Msg where
  role : Role
  content : String
deriving DecidableEq, Repr

/-- Python truthiness of the `history` argument: `if history:` is false
for `None` and for the empty list, true for a non-empty list. -/
def pyTruthy : Option (List (String × String)) → Bool
  | none => false
  | some [] => false
  | some (_ :: _) => true

/-- The body of the `for human, assistant in history:` loop of
`prepare_messages` (src/LLM.py lines 28-30): for each history turn,
append a user message then an assistant message. -/
def historyMsgs : List (String × String) → List Msg
  | [] => []
  | (human, assistant) :: rest =>
      ⟨Role.user, human⟩ :: ⟨Role.assistant, assistant⟩ :: historyMsgs rest

/-- Embedding of `LLMBase.prepare_messages` (src/LLM.py lines 9-35):
start from the system message built from `prompt`, add the history turns
when `history` is truthy, and append the latest user `message` last. -/
def prepare_messages (message prompt : String)
    (history : Option (List (String × String))) : List Msg :=
  ⟨Role.system, prompt⟩ ::
    ((if pyTruthy history then historyMsgs (history.getD []) else []) ++
      [⟨Role.user, message⟩])

/-- Error raised by an external provider call (authentication failure,
network failure, malformed response); the spec's `BackendError`. -/
structure BackendError where
  msg : String
deriving DecidableEq, Repr

/-- One outgoing provider API call, as issued by a `_call_model_api`
implementation: which provider transport, the credential, the message
list, the model identifier string, and the `max_tokens` ceiling. -/
structure ApiCall where
  provider : String
  apiKey : String
  messages : List Msg
  modelId : String
  maxTokens : Nat
deriving DecidableEq, Repr

/-- The external world: given an outgoing API call, the provider either
returns a textual completion or fails with a `BackendError`. -/
def Env : Type := ApiCall → Except BackendError String

/-- A configured model instance: one constructor per `LLMBase` subclass
of `src/LLM.py`, each holding the credential its constructor stores. -/
inductive Model where
  | llamaModel (groqApiKey : String)
  | gptModel (openaiApiKey : String)
  | mistralModel (groqApiKey : String)
  | newModel (apiKey : String)
deriving DecidableEq, Repr

/-- Embedding of `model.__class__.__name__` as used by
`LLMManager.chat_with_models` (src/LLM.py line 217). -/
def className : Model → String
  | .llamaModel _ => "LlamaModel"
  | .gptModel _ => "GPTModel"
  | .mistralModel _ => "MistralModel"
  | .newModel _ => "NewModel"

/-- Embedding of the `_call_model_api` implementations
(src/LLM.py lines 81-97, 111-127, 141-157, 171-181).  Each provider
variant issues exactly one API call, built exactly as at its call site
(model identifier string and the literal `max_tokens=1000`), and returns
the provider's answer; `NewModel` performs no external call and returns
a static string.  The second component is the trace of API calls made. -/
def call_model_api (env : Env) : Model → List Msg →
    Except BackendError String × List ApiCall
  | .llamaModel key, messages =>
      let c : ApiCall := ⟨"groq", key, messages, "llama-3.1-8b-instant", 1000⟩
      (env c, [c])
  | .gptModel key, messages =>
      let c : ApiCall := ⟨"openai", key, messages, "gpt-3.5-turbo", 1000⟩
      (env c, [c])
  | .mistralModel key, messages =>
      let c : ApiCall := ⟨"groq", key, messages, "mixtral-8x7b-32768", 1000⟩
      (env c, [c])
  | .newModel _, _ => (Except.ok "New Model's response", [])

/-- Embedding of `LLMBase.generate_response` (src/LLM.py lines 51-67):
prepare the messages, then call the specific model's API. -/
def generate_response (env : Env) (m : Model) (message prompt : String)
    (history : Option (List (String × String))) :
    Except BackendError String × List ApiCall :=
  call_model_api env m (prepare_messages message prompt history)

/-- The errors `LLMManager.chat_with_models` can raise: the local
`ValueError` for fewer than two models (the spec's
`InsufficientModelsError`), or a propagated backend failure. -/
inductive ChatError where
  | insufficientModels
  | backend (e : BackendError)
deriving DecidableEq, Repr

/-- Embedding of `LLMManager` (src/LLM.py lines 185-193): it holds the
list of configured model instances. -/
structure LLMManager where
  models : List Model
deriving DecidableEq, Repr

/-- The `for i, model in enumerate(selected_models):` loop of
`chat_with_models` (src/LLM.py lines 216-227).  The four accumulators
mirror the Python locals `model_a_name`, `model_b_name`,
`model_a_response`, `model_b_response`, initialised to `None`
(line 213-214); iteration `i = 0` fills the A slots, any later iteration
fills the B slots.  A `BackendError` raised by `generate_response`
aborts the loop and propagates, discarding the partial state. -/
def chatLoop (env : Env) (message prompt : String)
    (history : Option (List (String × String))) :
    List Model → Nat →
    Option String → Option String → Option String → Option String →
    Except BackendError
      (Option String × Option String × Option String × Option String) ×
      List ApiCall
  | [], _, an, bn, ar, br => (Except.ok (an, bn, ar, br), [])
  | m :: rest, i, an, bn, ar, br =>
      match generate_response env m message prompt history with
      | (Except.error e, tr) => (Except.error e, tr)
      | (Except.ok response, tr) =>
          let next :=
            if i == 0 then
              chatLoop env message prompt history rest (i + 1)
                (some (className m)) bn (some response) br
            else
              chatLoop env message prompt history rest (i + 1)
                an (some (className m)) ar (some response)
          (next.1, tr ++ next.2)

/-- Embedding of `LLMManager.chat_with_models` (src/LLM.py lines
195-229).  `random.sample(self.models, 2)` draws an ordered pair of
distinct positions of the model list; the draw is made explicit as the
`sample` argument, so the function is deterministic in the drawn pair.
With fewer than two models the manager raises before sampling and before
any backend call.  The result keeps the `Option` shape of the Python
locals, so an incomplete tuple would be visible as a `none` field. -/
def chat_with_models (env : Env) (mgr : LLMManager) (message prompt : String)
    (history : Option (List (String × String))) (sample : Nat × Nat) :
    Except ChatError
      (Option String × Option String × Option String × Option String) ×
      List ApiCall :=
  if mgr.models.length < 2 then (Except.error ChatError.insufficientModels, [])
  else
    let selected := [mgr.models.getD sample.1 (Model.newModel ""),
                     mgr.models.getD sample.2 (Model.newModel "")]
    match chatLoop env message prompt history selected 0 none none none none with
    | (Except.error e, tr) => (Except.error (ChatError.backend e), tr)
    | (Except.ok st, tr) => (Except.ok st, tr)

/-- The outcome space of `random.sample(models, 2)` over a list of
length `n`: all ordered pairs of distinct positions.  `random.sample`
draws uniformly from this space (selection order is random). -/
def samplePairs (n : Nat) : List (Nat × Nat) :=
  (List.range n).flatMap fun i =>
    (List.range n).filterMap fun j => if i = j then none else some (i, j)

/-! ## Helper lemmas -/

/-- The history loop produces, for each turn in order, a user message
followed by an assistant message: it equals a flatMap. -/
theorem historyMsgs_eq_flatMap (l : List (String × String)) :
    historyMsgs l =
      l.flatMap fun t => [⟨Role.user, t.1⟩, ⟨Role.assistant, t.2⟩] := by
  induction l with
  | nil => rfl
  | cons hd tl ih => cases hd; simp [historyMsgs, ih]

/-- Membership in the `random.sample` outcome space is exactly being an
ordered pair of distinct valid positions. -/
theorem mem_samplePairs {n a b : Nat} :
    (a, b) ∈ samplePairs n ↔ a < n ∧ b < n ∧ a ≠ b := by
  simp only [samplePairs, List.mem_flatMap, List.mem_filterMap, List.mem_range]
  constructor
  · rintro ⟨i, hi, j, hj, hij⟩
    split at hij
    · exact absurd hij (by simp)
    · next hne =>
        injection hij with h
        injection h with h1 h2
        subst h1
        subst h2
        exact ⟨hi, hj, hne⟩
  · rintro ⟨ha, hb, hab⟩
    exact ⟨a, ha, b, hb, by simp [hab]⟩

/-- Any element of the inner filterMap of `samplePairs` has the outer
index as its first component. -/
theorem samplePairs_inner_fst {n i : Nat} {x : Nat × Nat}
    (hx : x ∈ (List.range n).filterMap
      fun j => if i = j then none else some (i, j)) : x.1 = i := by
  rcases List.mem_filterMap.1 hx with ⟨j, _, hj⟩
  split at hj
  · exact absurd hj (by simp)
  · injection hj with h
    subst h
    rfl

/-- Each ordered pair of distinct valid positions occurs exactly once in
the `random.sample` outcome space. -/
theorem samplePairs_nodup (n : Nat) : (samplePairs n).Nodup := by
  refine List.nodup_flatMap.2 ⟨?_, ?_⟩
  · intro i _
    refine List.Nodup.filterMap ?_ (List.nodup_range n)
    intro a a' b hb hb'
    split at hb
    · exact absurd hb (by simp)
    · split at hb'
      · exact absurd hb' (by simp)
      · simp only [Option.mem_def, Option.some_inj] at hb hb'
        rw [← hb] at hb'
        injection hb' with h1 h2
        exact h2.symm
  · refine List.Pairwise.imp ?_ (List.nodup_range n)
    intro i j hij
    intro x hxi hxj
    have h1 := samplePairs_inner_fst hxi
    have h2 := samplePairs_inner_fst hxj
    exact hij (h1 ▸ h2 ▸ rfl)

/-- The default value used to read the sampled positions; never reached
for the valid positions `random.sample` produces. -/
def dflt : Model := Model.newModel ""

/-- Evaluation of `chat_with_models` when the first selected instance
fails: the `BackendError` propagates, wrapped as the chat-level error,
and only the first instance's API calls happened. -/
theorem chat_eval_err1 (env : Env) (mgr : LLMManager) (m p : String)
    (h : Option (List (String × String))) (i j : Nat) (e : BackendError)
    (tA : List ApiCall) (h2 : 2 ≤ mgr.models.length)
    (hA : generate_response env (mgr.models.getD i dflt) m p h =
      (Except.error e, tA)) :
    chat_with_models env mgr m p h (i, j) =
      (Except.error (ChatError.backend e), tA) := by
  have hlt : ¬ mgr.models.length < 2 := Nat.not_lt.mpr h2
  simp only [chat_with_models, if_neg hlt, chatLoop, dflt] at *
  rw [hA]

/-- Evaluation of `chat_with_models` when the first selected instance
succeeds and the second fails: the second failure propagates wrapped,
after the first instance's API calls. -/
theorem chat_eval_err2 (env : Env) (mgr : LLMManager) (m p : String)
    (h : Option (List (String × String))) (i j : Nat) (sA : String)
    (e : BackendError) (tA tB : List ApiCall) (h2 : 2 ≤ mgr.models.length)
    (hA : generate_response env (mgr.models.getD i dflt) m p h =
      (Except.ok sA, tA))
    (hB : generate_response env (mgr.models.getD j dflt) m p h =
      (Except.error e, tB)) :
    chat_with_models env mgr m p h (i, j) =
      (Except.error (ChatError.backend e), tA ++ tB) := by
  have hlt : ¬ mgr.models.length < 2 := Nat.not_lt.mpr h2
  simp only [chat_with_models, if_neg hlt, chatLoop, dflt] at *
  rw [hA, hB]
  simp

/-- Evaluation of `chat_with_models` when both selected instances
succeed: the A fields come from the first-drawn position, the B fields
from the second, and the trace is the first instance's calls followed by
the second's. -/
theorem chat_eval_ok (env : Env) (mgr : LLMManager) (m p : String)
    (h : Option (List (String × String))) (i j : Nat) (sA sB : String)
    (tA tB : List ApiCall) (h2 : 2 ≤ mgr.models.length)
    (hA : generate_response env (mgr.models.getD i dflt) m p h =
      (Except.ok sA, tA))
    (hB : generate_response env (mgr.models.getD j dflt) m p h =
      (Except.ok sB, tB)) :
    chat_with_models env mgr m p h (i, j) =
      (Except.ok (some (className (mgr.models.getD i dflt)),
                  some (className (mgr.models.getD j dflt)),
                  some sA, some sB), tA ++ tB) := by
  have hlt : ¬ mgr.models.length < 2 := Nat.not_lt.mpr h2
  simp only [chat_with_models, if_neg hlt, chatLoop, dflt] at *
  rw [hA, hB]
  simp

/-! ## Claim theorems -/

/-- Claim C1: for every message, prompt and non-empty history,
`prepare_messages` returns the system message built from the prompt,
then for each history turn in original order a user message followed by
an assistant message, and the new user message last. -/
theorem prepare_messages_with_history_spec (m p : String)
    (hs : List (String × String)) (hne : hs ≠ []) :
    prepare_messages m p (some hs) =
      ⟨Role.system, p⟩ ::
        (hs.flatMap (fun t => [⟨Role.user, t.1⟩, ⟨Role.assistant, t.2⟩]) ++
          [⟨Role.user, m⟩]) := by
  cases hs with
  | nil => exact absurd rfl hne
  | cons hd tl =>
      simp only [prepare_messages, pyTruthy, if_pos, Option.getD_some]
      rw [historyMsgs_eq_flatMap]

/-- Witness for C1 at the concrete input of the claim. -/
theorem prepare_messages_with_history_spec_witness :
    ([("h1", "a1"), ("h2", "a2")] : List (String × String)) ≠ [] ∧
    prepare_messages "hi" "sys" (some [("h1", "a1"), ("h2", "a2")]) =
      [⟨Role.system, "sys"⟩, ⟨Role.user, "h1"⟩, ⟨Role.assistant, "a1"⟩,
       ⟨Role.user, "h2"⟩, ⟨Role.assistant, "a2"⟩, ⟨Role.user, "hi"⟩] :=
  ⟨by simp, by
    rw [prepare_messages_with_history_spec "hi" "sys"
      [("h1", "a1"), ("h2", "a2")] (by simp)]
    rfl⟩

/-- Claim C5: with no history (`history=None`), `prepare_messages`
returns exactly the system message followed by the user message. -/
theorem prepare_messages_no_history (m p : String) :
    prepare_messages m p none = [⟨Role.system, p⟩, ⟨Role.user, m⟩] := rfl

/-- Claim C9: `prepare_messages` is deterministic — equal inputs give
equal message sequences (the embedding is a pure function of its
arguments, mirroring the side-effect-free Python code). -/
theorem prepare_messages_deterministic (m p : String)
    (h : Option (List (String × String))) (m2 p2 : String)
    (h2 : Option (List (String × String)))
    (hm : m = m2) (hp : p = p2) (hh : h = h2) :
    prepare_messages m p h = prepare_messages m2 p2 h2 := by
  rw [hm, hp, hh]

/-- Witness for C9 at a concrete input. -/
theorem prepare_messages_deterministic_witness :
    prepare_messages "hi" "sys" none = prepare_messages "hi" "sys" none :=
  prepare_messages_deterministic "hi" "sys" none "hi" "sys" none rfl rfl rfl

/-- Claim C10: an empty history list behaves exactly like no history,
because the history branch (`if history:`) is taken only for a truthy
(non-empty) value. -/
theorem prepare_messages_empty_history (m p : String) :
    prepare_messages m p (some []) = prepare_messages m p none ∧
    prepare_messages m p (some []) = [⟨Role.system, p⟩, ⟨Role.user, m⟩] ∧
    pyTruthy (some []) = false :=
  ⟨rfl, rfl, rfl⟩

/-- Claim C3: with fewer than two configured models, `chat_with_models`
fails with the insufficient-models error and makes zero backend calls
(empty trace), for every environment, inputs and sample. -/
theorem chat_insufficient_models (env : Env) (mgr : LLMManager)
    (m p : String) (h : Option (List (String × String))) (s : Nat × Nat)
    (hlt : mgr.models.length < 2) :
    chat_with_models env mgr m p h s =
      (Except.error ChatError.insufficientModels, []) := by
  simp [chat_with_models, hlt]

/-- Witness for C3 on a one-model manager. -/
theorem chat_insufficient_models_witness :
    (LLMManager.mk [Model.llamaModel "k"]).models.length < 2 ∧
    chat_with_models (fun _ => Except.ok "r")
        (LLMManager.mk [Model.llamaModel "k"]) "hi" "sys" none (0, 1) =
      (Except.error ChatError.insufficientModels, []) :=
  ⟨by decide, chat_insufficient_models (fun _ => Except.ok "r")
    (LLMManager.mk [Model.llamaModel "k"]) "hi" "sys" none (0, 1) (by decide)⟩

/-- Counterexample to C2 as stated: a manager configured with two
instances of the same class (`LlamaModel` with different keys) returns
the same name for A and B — the names are not distinct for every
configuration, because `chat_with_models` names instances by
`__class__.__name__`, which does not distinguish same-class instances. -/
theorem chat_names_equal_on_duplicate_classes :
    (chat_with_models (fun _ => Except.ok "r")
        (LLMManager.mk [Model.llamaModel "k1", Model.llamaModel "k2"])
        "hi" "sys" none (0, 1)).1 =
      Except.ok (some "LlamaModel", some "LlamaModel", some "r", some "r") := by
  rfl

/-- Amended claim C2: the two selected instances always occupy distinct
positions of the configured collection (sampling is without
replacement), and whenever all configured instances have pairwise
distinct class names, the two names returned by one comparison are
distinct. -/
theorem chat_names_distinct_of_nodup_classes (env : Env)
    (mgr : LLMManager) (m p : String)
    (h : Option (List (String × String))) (i j : Nat)
    (sA sB : String) (tA tB : List ApiCall)
    (h2 : 2 ≤ mgr.models.length)
    (hi : i < mgr.models.length) (hj : j < mgr.models.length) (hij : i ≠ j)
    (hnd : (mgr.models.map className).Nodup)
    (hA : generate_response env (mgr.models.getD i dflt) m p h =
      (Except.ok sA, tA))
    (hB : generate_response env (mgr.models.getD j dflt) m p h =
      (Except.ok sB, tB)) :
    chat_with_models env mgr m p h (i, j) =
      (Except.ok (some (className (mgr.models.getD i dflt)),
                  some (className (mgr.models.getD j dflt)),
                  some sA, some sB), tA ++ tB) ∧
    className (mgr.models.getD i dflt) ≠ className (mgr.models.getD j dflt) := by
  refine ⟨chat_eval_ok env mgr m p h i j sA sB tA tB h2 hA hB, ?_⟩
  intro heq
  rw [List.getD_eq_getElem _ dflt hi, List.getD_eq_getElem _ dflt hj] at heq
  have hi2 : i < (mgr.models.map className).length := by
    rw [List.length_map]; exact hi
  have hj2 : j < (mgr.models.map className).length := by
    rw [List.length_map]; exact hj
  have hmap : (mgr.models.map className)[i] = (mgr.models.map className)[j] := by
    rw [List.getElem_map, List.getElem_map]
    exact heq
  exact hij (hnd.getElem_inj_iff.1 hmap)

/-- Witness for the amended C2 on a two-model manager with distinct
classes. -/
theorem chat_names_distinct_of_nodup_classes_witness :
    chat_with_models (fun _ => Except.ok "r")
        (LLMManager.mk [Model.llamaModel "k1", Model.gptModel "k2"])
        "hi" "sys" none (0, 1) =
      (Except.ok (some "LlamaModel", some "GPTModel", some "r", some "r"),
        [⟨"groq", "k1", prepare_messages "hi" "sys" none,
          "llama-3.1-8b-instant", 1000⟩] ++
        [⟨"openai", "k2", prepare_messages "hi" "sys" none,
          "gpt-3.5-turbo", 1000⟩]) ∧
    ("LlamaModel" : String) ≠ "GPTModel" :=
  chat_names_distinct_of_nodup_classes (fun _ => Except.ok "r")
    (LLMManager.mk [Model.llamaModel "k1", Model.gptModel "k2"])
    "hi" "sys" none 0 1 "r" "r" _ _ (by decide) (by decide) (by decide)
    (by decide) (by decide) rfl rfl

/-- Claim C4: with at least two configured models, a `BackendError`
raised by either selected instance's `generate_response` propagates
unchanged (wrapped as the chat-level backend error) to the caller, and a
successful result is always a complete 4-tuple — every field is filled,
never a partial tuple. -/
theorem chat_error_propagation_and_completeness (env : Env)
    (mgr : LLMManager) (m p : String)
    (h : Option (List (String × String))) (i j : Nat)
    (hge : 2 ≤ mgr.models.length) :
    (∀ e tA, generate_response env (mgr.models.getD i dflt) m p h =
        (Except.error e, tA) →
      (chat_with_models env mgr m p h (i, j)).1 =
        Except.error (ChatError.backend e)) ∧
    (∀ sA tA e tB,
      generate_response env (mgr.models.getD i dflt) m p h =
        (Except.ok sA, tA) →
      generate_response env (mgr.models.getD j dflt) m p h =
        (Except.error e, tB) →
      (chat_with_models env mgr m p h (i, j)).1 =
        Except.error (ChatError.backend e)) ∧
    (∀ an bn ar br tr,
      chat_with_models env mgr m p h (i, j) =
        (Except.ok (an, bn, ar, br), tr) →
      (∃ a, an = some a) ∧ (∃ b, bn = some b) ∧
      (∃ ra, ar = some ra) ∧ (∃ rb, br = some rb)) := by
  refine ⟨?_, ?_, ?_⟩
  · intro e tA hA
    rw [chat_eval_err1 env mgr m p h i j e tA hge hA]
  · intro sA tA e tB hA hB
    rw [chat_eval_err2 env mgr m p h i j sA e tA tB hge hA hB]
  · intro an bn ar br tr hok
    rcases hgA : generate_response env (mgr.models.getD i dflt) m p h with ⟨rA, tA⟩
    cases rA with
    | error e =>
        rw [chat_eval_err1 env mgr m p h i j e tA hge hgA] at hok
        simp at hok
    | ok sA =>
        rcases hgB : generate_response env (mgr.models.getD j dflt) m p h with ⟨rB, tB⟩
        cases rB with
        | error e =>
            rw [chat_eval_err2 env mgr m p h i j sA e tA tB hge hgA hgB] at hok
            simp at hok
        | ok sB =>
            rw [chat_eval_ok env mgr m p h i j sA sB tA tB hge hgA hgB] at hok
            simp only [Prod.mk.injEq, Except.ok.injEq] at hok
            obtain ⟨⟨h1, h2, h3, h4⟩, -⟩ := hok
            exact ⟨⟨_, h1.symm⟩, ⟨_, h2.symm⟩, ⟨_, h3.symm⟩, ⟨_, h4.symm⟩⟩

/-- Witness for C4: a failing backend on a two-model manager propagates
its error. -/
theorem chat_error_propagation_witness :
    (chat_with_models (fun _ => Except.error ⟨"boom"⟩)
        (LLMManager.mk [Model.llamaModel "k1", Model.gptModel "k2"])
        "hi" "sys" none (0, 1)).1 =
      Except.error (ChatError.backend ⟨"boom"⟩) :=
  (chat_error_propagation_and_completeness (fun _ => Except.error ⟨"boom"⟩)
    (LLMManager.mk [Model.llamaModel "k1", Model.gptModel "k2"])
    "hi" "sys" none 0 1 (by decide)).1 ⟨"boom"⟩ _ rfl

/-- Claim C6: for a valid draw (an ordered pair of distinct positions —
exactly the outcome space of `random.sample(models, 2)`, in which every
such pair occurs exactly once), `chat_with_models` invokes
`generate_response` on the first-drawn instance and then on the
second-drawn instance with the same message, prompt and history (traces
concatenate in that order), and returns nameA/responseA from the
first-invoked instance and nameB/responseB from the second. -/
theorem chat_random_selection_spec (env : Env) (mgr : LLMManager)
    (m p : String) (h : Option (List (String × String))) (i j : Nat)
    (sA sB : String) (tA tB : List ApiCall)
    (hge : 2 ≤ mgr.models.length)
    (hmem : (i, j) ∈ samplePairs mgr.models.length)
    (hA : generate_response env (mgr.models.getD i dflt) m p h =
      (Except.ok sA, tA))
    (hB : generate_response env (mgr.models.getD j dflt) m p h =
      (Except.ok sB, tB)) :
    chat_with_models env mgr m p h (i, j) =
      (Except.ok (some (className (mgr.models.getD i dflt)),
                  some (className (mgr.models.getD j dflt)),
                  some sA, some sB), tA ++ tB) ∧
    (i < mgr.models.length ∧ j < mgr.models.length ∧ i ≠ j) ∧
    (samplePairs mgr.models.length).Nodup ∧
    (∀ a b, (a, b) ∈ samplePairs mgr.models.length ↔
      (a < mgr.models.length ∧ b < mgr.models.length ∧ a ≠ b)) :=
  ⟨chat_eval_ok env mgr m p h i j sA sB tA tB hge hA hB,
   mem_samplePairs.1 hmem, samplePairs_nodup _, fun _ _ => mem_samplePairs⟩

/-- Witness for C6 on a concrete two-model manager and the draw (0, 1). -/
theorem chat_random_selection_spec_witness :
    chat_with_models (fun _ => Except.ok "r")
        (LLMManager.mk [Model.mistralModel "k1", Model.gptModel "k2"])
        "hi" "sys" none (0, 1) =
      (Except.ok (some "MistralModel", some "GPTModel", some "r", some "r"),
        [⟨"groq", "k1", prepare_messages "hi" "sys" none,
          "mixtral-8x7b-32768", 1000⟩] ++
        [⟨"openai", "k2", prepare_messages "hi" "sys" none,
          "gpt-3.5-turbo", 1000⟩]) :=
  (chat_random_selection_spec (fun _ => Except.ok "r")
    (LLMManager.mk [Model.mistralModel "k1", Model.gptModel "k2"])
    "hi" "sys" none 0 1 "r" "r" _ _ (by decide) (by decide) rfl rfl).1

/-- Claim C7: `generate_response` is exactly the composition of message
preparation and the backend call: it returns `call_model_api` applied to
the prepared messages, every API call it issues carries exactly the
prepared message sequence, and each backend-bound variant (all but the
no-op `NewModel`) issues exactly one API call whose result is returned
unmodified. -/
theorem generate_response_composition (env : Env) (mo : Model)
    (m p : String) (h : Option (List (String × String))) :
    generate_response env mo m p h =
      call_model_api env mo (prepare_messages m p h) ∧
    (∀ c ∈ (generate_response env mo m p h).2,
      c.messages = prepare_messages m p h ∧
      (generate_response env mo m p h).1 = env c) ∧
    ((∀ k, mo ≠ Model.newModel k) →
      (generate_response env mo m p h).2.length = 1) := by
  refine ⟨rfl, ?_, ?_⟩
  · intro c hc
    cases mo <;> simp only [generate_response, call_model_api,
      List.mem_singleton, List.not_mem_nil] at hc <;>
      first
        | exact absurd hc (by simp)
        | (subst hc; exact ⟨rfl, rfl⟩)
  · intro hne
    cases mo with
    | newModel k => exact absurd rfl (hne k)
    | llamaModel k => rfl
    | gptModel k => rfl
    | mistralModel k => rfl

/-- Witness for C7 on the Llama variant at a concrete input. -/
theorem generate_response_composition_witness :
    generate_response (fun _ => Except.ok "r") (Model.llamaModel "k")
        "hi" "sys" none =
      call_model_api (fun _ => Except.ok "r") (Model.llamaModel "k")
        (prepare_messages "hi" "sys" none) ∧
    ((⟨"groq", "k", prepare_messages "hi" "sys" none,
        "llama-3.1-8b-instant", 1000⟩ : ApiCall).messages =
      prepare_messages "hi" "sys" none) ∧
    (generate_response (fun _ => Except.ok "r") (Model.llamaModel "k")
      "hi" "sys" none).2.length = 1 := by
  obtain ⟨h1, h2, h3⟩ := generate_response_composition
    (fun _ => Except.ok "r") (Model.llamaModel "k") "hi" "sys" none
  exact ⟨h1, (h2 _ (by simp [generate_response, call_model_api])).1,
    h3 (fun k hk => Model.noConfusion hk)⟩

/-- Claim C8 (semantic part): every API call issued by any variant
carries the same fixed token ceiling 1000.  In the source this value is
the literal `1000` written separately at each of the three call sites
(src/LLM.py lines 95, 125, 155), not a shared named constant. -/
theorem max_tokens_always_1000 (env : Env) (mo : Model)
    (msgs : List Msg) :
    ((call_model_api env mo msgs).2.all fun c => c.maxTokens == 1000) =
      true := by
  cases mo <;> rfl

end Linnaeus
